import Mathlib

/-!
Verification of the brinqa-mcp server (`src/index.ts`) against its
natural-language specification.  The TypeScript source is shallowly
embedded: the pure GraphQL query builders become Lean functions on
parameter records (TS `undefined` is `Option.none`), and the stateful
`BrinqaClient` (authenticate / getAuthHeaders / executeGraphQL) becomes
explicit state passing over a `ClientState`, with the network modelled
as an environment of responses and the unbounded 401-retry recursion
modelled with fuel.
-/

set_option maxRecDepth 200000

set_option maxHeartbeats 1000000

namespace Brinqa

/-! ## JavaScript-semantics helpers -/

/-- Truthiness of an optional string, as JS `if (s)`: defined and non-empty. -/
def truthyS : Option String → Bool
  | none => false
  | some s => !(s == "")

/-- Truthiness of an optional number, as JS `if (n)`: defined and non-zero. -/
def truthyI : Option Int → Bool
  | none => false
  | some n => !(n == 0)

/-- Truthiness of an optional boolean, as JS `if (b)`: defined and `true`. -/
def truthyB : Option Bool → Bool
  | none => false
  | some b => b

/-- JS `v || d` for an optional number `v`: `d` when `v` is undefined or `0`. -/
def jsOrI (v : Option Int) (d : Int) : Int :=
  match v with
  | none => d
  | some n => if n == 0 then d else n

/-- JS `Array.prototype.join(sep)`. -/
def joinSep (sep : String) : List String → String
  | [] => ""
  | [x] => x
  | x :: y :: ys => x ++ sep ++ joinSep sep (y :: ys)

/-! ## Substring occurrence machinery

`strOccurs pat s` decides whether `pat` occurs as a contiguous substring
of `s`; it is used to state which clauses and blocks are present in a
generated GraphQL document. -/

/-- Prefix test on character lists: `hasPre p s` holds when `p` is a prefix of `s`. -/
def hasPre : List Char → List Char → Bool
  | [], _ => true
  | _ :: _, [] => false
  | p :: ps, c :: cs => p == c && hasPre ps cs

/-- Sublist test: `hasInf p s` holds when `p` occurs contiguously inside `s`. -/
def hasInf : List Char → List Char → Bool
  | p, [] => p.isEmpty
  | p, c :: cs => hasPre p (c :: cs) || hasInf p cs

/-- Whether `pat` occurs as a substring of `s`. -/
def strOccurs (pat s : String) : Bool :=
  hasInf pat.data s.data

theorem hasPre_refl (l : List Char) : hasPre l l = true := by
  induction l with
  | nil => rfl
  | cons c cs ih => simp [hasPre, ih]

theorem hasPre_ext {p l : List Char} (t : List Char) (h : hasPre p l = true) :
    hasPre p (l ++ t) = true := by
  induction p generalizing l with
  | nil => rfl
  | cons x xs ih =>
    cases l with
    | nil => simp [hasPre] at h
    | cons c cs =>
      simp [hasPre] at h ⊢
      exact ⟨h.1, ih h.2⟩

theorem hasInf_nil_pat (s : List Char) : hasInf [] s = true := by
  cases s with
  | nil => rfl
  | cons c cs => simp [hasInf, hasPre]

theorem hasInf_of_pre {p s : List Char} (h : hasPre p s = true) :
    hasInf p s = true := by
  cases s with
  | nil =>
    cases p with
    | nil => rfl
    | cons x xs => simp [hasPre] at h
  | cons c cs => simp [hasInf, h]

theorem hasInf_app_r {p b : List Char} (a : List Char) (h : hasInf p b = true) :
    hasInf p (a ++ b) = true := by
  induction a with
  | nil => simpa using h
  | cons c cs ih => simp [hasInf, ih]

theorem hasInf_app_l {p a : List Char} (b : List Char) (h : hasInf p a = true) :
    hasInf p (a ++ b) = true := by
  induction a with
  | nil =>
    cases p with
    | nil => exact hasInf_nil_pat b
    | cons x xs => simp [hasInf, List.isEmpty] at h
  | cons c cs ih =>
    simp only [hasInf, Bool.or_eq_true] at h
    rcases h with h | h
    · simp only [List.cons_append, hasInf, Bool.or_eq_true]
      exact Or.inl (hasPre_ext b h)
    · simp only [List.cons_append, hasInf, Bool.or_eq_true]
      exact Or.inr (ih h)

theorem strOccurs_refl (p : String) : strOccurs p p = true := by
  unfold strOccurs
  exact hasInf_of_pre (by simpa using hasPre_ext [] (hasPre_refl p.data))

theorem strOccurs_append_left {p a : String} (b : String)
    (h : strOccurs p a = true) : strOccurs p (a ++ b) = true := by
  unfold strOccurs at h ⊢
  rw [String.data_append]
  exact hasInf_app_l b.data h

theorem strOccurs_append_right {p b : String} (a : String)
    (h : strOccurs p b = true) : strOccurs p (a ++ b) = true := by
  unfold strOccurs at h ⊢
  rw [String.data_append]
  exact hasInf_app_r a.data h

/-! ## Query parameter translators (the `build*Query` functions)

Each is a direct transcription of the corresponding TypeScript builder;
template literals become explicit string concatenation (`\x7b`/`\x7d`
are the escaped brace characters). -/

/-- The `nodes(first: ${limit})` portion shared by the list templates. -/
def nodesMid (pre : String) (v : Int) (post : String) : String :=
  pre ++ ("nodes(first: " ++ toString v ++ ")") ++ post

/-- JS `filters.length > 0 ? ... : ""`: wrap the joined clauses in parentheses when present. -/
def filterStrOf (filters : List String) : String :=
  if filters.length > 0 then "(" ++ joinSep (", ") filters ++ ")" else ""

structure AssetsParams where
  asset_type : Option String := none
  status : Option String := none
  limit : Option Int := none
  filter : Option String := none
  fields : Option (List String) := none

def assetsDefaultFields : String :=
  "id\n        name\n        assetType\n        status\n        criticality\n        riskScore\n        ipAddress\n        hostname\n        operatingSystem\n        lastSeen\n        discoveredAt\n        owner\n        businessUnit\n        environment\n        tags"

/-- JS `params.fields?.join(...) || defaultFields`. -/
def assetsFieldsOf (p : AssetsParams) : String :=
  match p.fields with
  | none => assetsDefaultFields
  | some fs =>
    let j := joinSep ("\n        ") fs
    if j == "" then assetsDefaultFields else j

def assetsFilters (p : AssetsParams) : List String :=
  (if truthyS p.asset_type then ["assetType: \"" ++ p.asset_type.getD ("") ++ "\""] else []) ++
  (if truthyS p.status then ["status: " ++ p.status.getD ("")] else []) ++
  (if truthyS p.filter then ["filter: \"" ++ p.filter.getD ("") ++ "\""] else [])

def buildAssetsQuery (p : AssetsParams) : String :=
  nodesMid
    ("\n    query GetAssets \x7b\n      assets" ++ filterStrOf (assetsFilters p) ++
      " \x7b\n        totalCount\n        pageInfo \x7b\n          hasNextPage\n          endCursor\n        \x7d\n        ")
    (min (jsOrI p.limit 100) 1000)
    (" \x7b\n          " ++ assetsFieldsOf p ++ "\n        \x7d\n      \x7d\n    \x7d\n  ")

structure VulnsParams where
  severity : Option String := none
  status : Option String := none
  cve_id : Option String := none
  limit : Option Int := none
  filter : Option String := none
  include_affected_assets : Option Bool := none

def affectedAssetsBlock : String :=
  "affectedAssets \x7b\n            id\n            name\n            assetType\n          \x7d"

def vulnsFilters (p : VulnsParams) : List String :=
  (if truthyS p.severity then ["severity: " ++ p.severity.getD ("")] else []) ++
  (if truthyS p.status then ["status: " ++ p.status.getD ("")] else []) ++
  (if truthyS p.cve_id then ["cveId: \"" ++ p.cve_id.getD ("") ++ "\""] else []) ++
  (if truthyS p.filter then ["filter: \"" ++ p.filter.getD ("") ++ "\""] else [])

def buildVulnerabilitiesQuery (p : VulnsParams) : String :=
  nodesMid
    ("\n    query GetVulnerabilities \x7b\n      vulnerabilities" ++ filterStrOf (vulnsFilters p) ++
      " \x7b\n        totalCount\n        pageInfo \x7b\n          hasNextPage\n          endCursor\n        \x7d\n        ")
    (min (jsOrI p.limit 100) 1000)
    (" \x7b\n          id\n          cveId\n          title\n          description\n          severity\n          cvssScore\n          cvssVector\n          status\n          riskScore\n          exploitAvailable\n          exploitMaturity\n          patchAvailable\n          publishedDate\n          lastModifiedDate\n          firstDiscoveredDate\n          affectedAssetCount\n          " ++
      (if truthyB p.include_affected_assets then affectedAssetsBlock else "") ++
      "\n          references\n          remediation\n        \x7d\n      \x7d\n    \x7d\n  ")

structure FindingsParams where
  finding_type : Option String := none
  status : Option String := none
  risk_score_min : Option Int := none
  risk_score_max : Option Int := none
  limit : Option Int := none
  age_days : Option Int := none

def findingsFilters (p : FindingsParams) : List String :=
  (if truthyS p.finding_type then ["findingType: \"" ++ p.finding_type.getD ("") ++ "\""] else []) ++
  (if truthyS p.status then ["status: " ++ p.status.getD ("")] else []) ++
  (if p.risk_score_min.isSome then ["riskScoreMin: " ++ toString (p.risk_score_min.getD 0)] else []) ++
  (if p.risk_score_max.isSome then ["riskScoreMax: " ++ toString (p.risk_score_max.getD 0)] else []) ++
  (if truthyI p.age_days then ["discoveredAfter: \"-" ++ toString (p.age_days.getD 0) ++ "d\""] else [])

def buildFindingsQuery (p : FindingsParams) : String :=
  nodesMid
    ("\n    query GetFindings \x7b\n      findings" ++ filterStrOf (findingsFilters p) ++
      " \x7b\n        totalCount\n        pageInfo \x7b\n          hasNextPage\n          endCursor\n        \x7d\n        ")
    (min (jsOrI p.limit 100) 1000)
    (" \x7b\n          id\n          findingType\n          title\n          description\n          status\n          severity\n          riskScore\n          baseRiskScore\n          overallRiskScore\n          discoveredAt\n          lastSeenAt\n          resolvedAt\n          asset \x7b\n            id\n            name\n            assetType\n          \x7d\n          vulnerability \x7b\n            id\n            cveId\n            title\n          \x7d\n          assignee\n          dueDate\n          slaStatus\n        \x7d\n      \x7d\n    \x7d\n  ")

structure TicketsParams where
  status : Option String := none
  priority : Option String := none
  assignee : Option String := none
  sla_status : Option String := none
  limit : Option Int := none

def ticketsFilters (p : TicketsParams) : List String :=
  (if truthyS p.status then ["status: " ++ p.status.getD ("")] else []) ++
  (if truthyS p.priority then ["priority: " ++ p.priority.getD ("")] else []) ++
  (if truthyS p.assignee then ["assignee: \"" ++ p.assignee.getD ("") ++ "\""] else []) ++
  (if truthyS p.sla_status then ["slaStatus: " ++ p.sla_status.getD ("")] else [])

def buildTicketsQuery (p : TicketsParams) : String :=
  nodesMid
    ("\n    query GetTickets \x7b\n      tickets" ++ filterStrOf (ticketsFilters p) ++
      " \x7b\n        totalCount\n        pageInfo \x7b\n          hasNextPage\n          endCursor\n        \x7d\n        ")
    (min (jsOrI p.limit 100) 1000)
    (" \x7b\n          id\n          ticketId\n          title\n          description\n          status\n          priority\n          severity\n          assignee\n          reporter\n          createdAt\n          updatedAt\n          dueDate\n          slaStatus\n          slaDueDate\n          findingsCount\n          affectedAssetsCount\n          externalTicketId\n          externalTicketUrl\n        \x7d\n      \x7d\n    \x7d\n  ")

structure RiskParams where
  scope : Option String := none
  entity_id : Option String := none
  include_factors : Option Bool := none
  include_trends : Option Bool := none

def riskFactorsBlock : String :=
  "riskFactors \x7b\n          name\n          weight\n          score\n          description\n        \x7d"

def riskTrendsBlock : String :=
  "riskTrends \x7b\n          date\n          score\n          changePercent\n        \x7d"

def buildRiskScoresQuery (p : RiskParams) : String :=
  let factorsFields := if truthyB p.include_factors then riskFactorsBlock else ""
  let trendsFields := if truthyB p.include_trends then riskTrendsBlock else ""
  if (p.scope == some ("ASSET")) && truthyS p.entity_id then
    "\n      query GetAssetRiskScore \x7b\n        " ++ "asset(id: \"" ++ p.entity_id.getD ("") ++
      "\") \x7b\n          id\n          name\n          riskScore\n          baseRiskScore\n          overallRiskScore\n          " ++
      factorsFields ++ "\n          " ++ trendsFields ++ "\n        \x7d\n      \x7d\n    "
  else
    "\n    query GetRiskScores \x7b\n      riskSummary \x7b\n        overallRiskScore\n        criticalAssetCount\n        highRiskAssetCount\n        mediumRiskAssetCount\n        lowRiskAssetCount\n        totalAssetCount\n        openFindingsCount\n        criticalFindingsCount\n        averageRemediationTime\n        " ++
      factorsFields ++ "\n        " ++ trendsFields ++ "\n      \x7d\n    \x7d\n  "

structure ConnectorsParams where
  connector_type : Option String := none
  status : Option String := none
  include_sync_history : Option Bool := none

def syncHistoryBlock : String :=
  "syncHistory \x7b\n          syncId\n          startTime\n          endTime\n          status\n          recordsProcessed\n          errorsCount\n        \x7d"

def connectorsFilters (p : ConnectorsParams) : List String :=
  (if truthyS p.connector_type then ["connectorType: \"" ++ p.connector_type.getD ("") ++ "\""] else []) ++
  (if truthyS p.status then ["status: " ++ p.status.getD ("")] else [])

def buildConnectorsQuery (p : ConnectorsParams) : String :=
  "\n    query GetConnectors \x7b\n      connectors" ++ filterStrOf (connectorsFilters p) ++
    " \x7b\n        id\n        name\n        connectorType\n        status\n        lastSyncTime\n        lastSyncStatus\n        recordsCount\n        configuration \x7b\n          enabled\n          syncSchedule\n        \x7d\n        " ++
    (if truthyB p.include_sync_history then syncHistoryBlock else "") ++
    "\n      \x7d\n    \x7d\n  "

structure ClustersParams where
  cluster_type : Option String := none
  limit : Option Int := none

def clustersFilters (p : ClustersParams) : List String :=
  if truthyS p.cluster_type then ["clusterType: \"" ++ p.cluster_type.getD ("") ++ "\""] else []

def buildClustersQuery (p : ClustersParams) : String :=
  nodesMid
    ("\n    query GetClusters \x7b\n      clusters" ++ filterStrOf (clustersFilters p) ++ " \x7b\n        ")
    (min (jsOrI p.limit 50) 500)
    (" \x7b\n          id\n          name\n          clusterType\n          description\n          entityCount\n          riskScore\n          criteria \x7b\n            attribute\n            operator\n            value\n          \x7d\n          createdAt\n          updatedAt\n        \x7d\n      \x7d\n    \x7d\n  ")

structure DataModelsParams where
  model_name : Option String := none
  include_attributes : Option Bool := none
  include_relationships : Option Bool := none

def attributesBlock : String :=
  "attributes \x7b\n          name\n          type\n          description\n          required\n          indexed\n        \x7d"

def relationshipsBlock : String :=
  "relationships \x7b\n          name\n          targetModel\n          cardinality\n          description\n        \x7d"

def buildDataModelsQuery (p : DataModelsParams) : String :=
  let attributesFields := if truthyB p.include_attributes then attributesBlock else ""
  let relationshipsFields := if truthyB p.include_relationships then relationshipsBlock else ""
  if truthyS p.model_name then
    "\n      query GetDataModel \x7b\n        dataModel(name: \"" ++ p.model_name.getD ("") ++
      "\") \x7b\n          name\n          description\n          category\n          " ++
      attributesFields ++ "\n          " ++ relationshipsFields ++ "\n        \x7d\n      \x7d\n    "
  else
    "\n    query GetDataModels \x7b\n      dataModels \x7b\n        name\n        description\n        category\n        " ++
      attributesFields ++ "\n        " ++ relationshipsFields ++ "\n      \x7d\n    \x7d\n  "

/-! ## The `BrinqaClient` state machine

`authenticate` / `getAuthHeaders` / `executeGraphQL` from `src/index.ts`,
with the mutable fields `accessToken` / `tokenExpiry` made an explicit
`ClientState`, `Date.now()` a parameter `now` (milliseconds), the login
endpoint's behaviour a `LoginOutcome`, and the GraphQL endpoint's
behaviour an environment `env : Nat → GqlResp` giving the response to
the `k`-th POST.  The unbounded recursion of the TS 401 handler is
modelled with fuel: exhausting the fuel yields `ExecResult.fuelOut`. -/

/-- The three `BRINQA_*` credential environment variables (empty = unset). -/
structure Config where
  apiKey : String
  username : String
  password : String
  deriving DecidableEq

/-- The client's mutable session fields. -/
structure ClientState where
  accessToken : Option String
  tokenExpiry : Int
  deriving DecidableEq

/-- Behaviour of `POST /api/auth/login`. -/
inductive LoginOutcome where
  | success (access_token : String) (expires_in : Int)
  | failure (msg : String)
  deriving DecidableEq

/-- Result of `authenticate()`: new state plus whether a login network
call was issued, or a thrown error. -/
inductive AuthResult where
  | ok (s : ClientState) (loginCalled : Bool)
  | error (msg : String)
  deriving DecidableEq

/-- Embeds `BrinqaClient.authenticate` (lines 50-90).  The fast-path
guard `if (this.accessToken && Date.now() < this.tokenExpiry)` tests JS
truthiness of the token (`null` and `""` are both falsy), modelled with
`truthyS`. -/
def authenticate (cfg : Config) (now : Int) (login : LoginOutcome)
    (s : ClientState) : AuthResult :=
  if truthyS s.accessToken = true ∧ now < s.tokenExpiry then
    .ok s false
  else if cfg.apiKey ≠ "" then
    .ok ⟨some cfg.apiKey, now + 24 * 60 * 60 * 1000⟩ false
  else if cfg.username = "" ∨ cfg.password = "" then
    .error ("Authentication credentials not configured. Set BRINQA_USERNAME and BRINQA_PASSWORD or BRINQA_API_KEY.")
  else
    match login with
    | .success tok exp => .ok ⟨some tok, now + (exp - 300) * 1000⟩ true
    | .failure m => .error ("Authentication failed: " ++ m)

/-- The header record built by `getAuthHeaders`. -/
structure AuthHeaders where
  authorization : String
  contentType : String
  accept : String
  deriving DecidableEq

/-- Result of `getAuthHeaders()`: headers, post-state, and whether a
login call was issued. -/
inductive HeadersResult where
  | ok (h : AuthHeaders) (s : ClientState) (loginCalled : Bool)
  | error (msg : String)
  deriving DecidableEq

/-- Embeds `BrinqaClient.getAuthHeaders` (lines 92-99). -/
def getAuthHeaders (cfg : Config) (now : Int) (login : LoginOutcome)
    (s : ClientState) : HeadersResult :=
  match authenticate cfg now login s with
  | .error m => .error m
  | .ok s' lc =>
    .ok ⟨"Bearer " ++ s'.accessToken.getD (""), "application/json", "application/json"⟩ s' lc

/-- Response of the GraphQL endpoint to one POST: a 2xx body
(`data` present?, `errors` list), an axios HTTP error with optional
status, or a non-axios failure. -/
inductive GqlResp where
  | ok (hasData : Bool) (errors : List String)
  | httpErr (status : Option Nat) (msg : String)
  | netErr (msg : String)
  deriving DecidableEq

/-- Outcome of `executeGraphQL`: success, a thrown error message, or
fuel exhaustion (standing for the non-termination of the unbounded
TS recursion). -/
inductive ExecResult where
  | success
  | failure (msg : String)
  | fuelOut
  deriving DecidableEq

/-- Embeds `BrinqaClient.executeGraphQL` (lines 101-144).  Returns the outcome,
the final client state, and the list of query documents actually POSTed
to `/graphql/caasm` (in order).  On a 401 the token is cleared and the
whole request re-entered, exactly as in the source. -/
def executeGraphQL (cfg : Config) (now : Int) (login : LoginOutcome)
    (env : Nat → GqlResp) :
    Nat → ClientState → Nat → String → ExecResult × ClientState × List String
  | 0, s, _, _ => (.fuelOut, s, [])
  | fuel + 1, s, k, q =>
    match getAuthHeaders cfg now login s with
    | .error m => (.failure m, s, [])
    | .ok _ s' _ =>
      match env k with
      | .ok hasData errs =>
        if errs.isEmpty then
          if hasData then (.success, s', [q])
          else (.failure ("No data returned from GraphQL query"), s', [q])
        else (.failure ("GraphQL errors: " ++ joinSep ("; ") errs), s', [q])
      | .httpErr status m =>
        if status = some 401 then
          let r := executeGraphQL cfg now login env fuel ⟨none, 0⟩ (k + 1) q
          (r.1, r.2.1, q :: r.2.2)
        else (.failure ("GraphQL request failed: " ++ m), s', [q])
      | .netErr m => (.failure m, s', [q])

/-! ### Tool-call handlers (the `CallToolRequestSchema` switch arms)

Each arm casts the arguments and immediately calls `executeGraphQL`
with the built (or raw) document — no validation of any kind happens
before the call. -/

/-- The `query_assets` arm (lines 954-965). -/
def handleQueryAssets (cfg : Config) (now : Int) (login : LoginOutcome)
    (env : Nat → GqlResp) (fuel : Nat) (s : ClientState) (p : AssetsParams) :
    ExecResult × ClientState × List String :=
  executeGraphQL cfg now login env fuel s 0 (buildAssetsQuery p)

/-- The `execute_graphql` arm (lines 1031-1041): the raw query text is
passed through unexamined. -/
def handleExecuteGraphQL (cfg : Config) (now : Int) (login : LoginOutcome)
    (env : Nat → GqlResp) (fuel : Nat) (s : ClientState) (q : String) :
    ExecResult × ClientState × List String :=
  executeGraphQL cfg now login env fuel s 0 q

/-! ### Concrete environments used in the claim instances -/

/-- Username/password configuration, no API key. -/
def cfgUserPass : Config := ⟨"", "user", "pass"⟩

/-- A GraphQL endpoint that answers every POST with HTTP 401. -/
def env401 : Nat → GqlResp := fun _ => .httpErr (some 401) ("Request failed with status code 401")

/-- A GraphQL endpoint that answers every POST with a well-formed
success body. -/
def envOk : Nat → GqlResp := fun _ => .ok true []

/-- A login outcome standing for a working login endpoint. -/
def loginOk : LoginOutcome := .success ("tok") 86400

/-- Runs `executeGraphQL` against the always-401 endpoint, from a fresh
client state, with username/password credentials. -/
def exec401 (fuel k : Nat) : ExecResult × ClientState × List String :=
  executeGraphQL cfgUserPass 1000 loginOk env401 fuel ⟨none, 0⟩ k ("query")

/-- A filter value containing clause-terminating sequences: the
closing-delimiter pattern `")`, a structural reflection marker, and a
clause-opening brace. -/
def injectionFilter : String := "HIGH\") \x7b __typename \x7d mutation \x7b"

/-! ## General occurrence lemmas about the generated documents -/

theorem strOccurs_nodesMid (pre post : String) (v : Int) :
    strOccurs ("nodes(first: " ++ toString v ++ ")") (nodesMid pre v post) = true := by
  unfold nodesMid
  exact strOccurs_append_left post (strOccurs_append_right pre (strOccurs_refl _))

theorem assets_limit_occurs (lopt : Option Int) :
    strOccurs ("nodes(first: " ++ toString (min (jsOrI lopt 100) 1000) ++ ")")
      (buildAssetsQuery { limit := lopt }) = true :=
  strOccurs_nodesMid _ _ _

theorem vulns_limit_occurs (lopt : Option Int) :
    strOccurs ("nodes(first: " ++ toString (min (jsOrI lopt 100) 1000) ++ ")")
      (buildVulnerabilitiesQuery { limit := lopt }) = true :=
  strOccurs_nodesMid _ _ _

theorem findings_limit_occurs (lopt : Option Int) :
    strOccurs ("nodes(first: " ++ toString (min (jsOrI lopt 100) 1000) ++ ")")
      (buildFindingsQuery { limit := lopt }) = true :=
  strOccurs_nodesMid _ _ _

theorem tickets_limit_occurs (lopt : Option Int) :
    strOccurs ("nodes(first: " ++ toString (min (jsOrI lopt 100) 1000) ++ ")")
      (buildTicketsQuery { limit := lopt }) = true :=
  strOccurs_nodesMid _ _ _

theorem clusters_limit_occurs (lopt : Option Int) :
    strOccurs ("nodes(first: " ++ toString (min (jsOrI lopt 50) 500) ++ ")")
      (buildClustersQuery { limit := lopt }) = true :=
  strOccurs_nodesMid _ _ _

theorem truthyS_isSome {o : Option String} (h : truthyS o = true) : o.isSome = true := by
  cases o with
  | none => simp [truthyS] at h
  | some s => rfl

/-! ## Claim C10 -/

/-- C10: every limit-taking builder coalesces a supplied limit of `0`
with `||`, so a limit of 0 is treated exactly as if the limit were
unset, and the generated document contains the default (100, or 50 for
clusters), never 0. -/
theorem c10_limit_zero_is_default :
    (∀ p : AssetsParams, buildAssetsQuery { p with limit := some 0 } =
      buildAssetsQuery { p with limit := none }) ∧
    (∀ p : VulnsParams, buildVulnerabilitiesQuery { p with limit := some 0 } =
      buildVulnerabilitiesQuery { p with limit := none }) ∧
    (∀ p : FindingsParams, buildFindingsQuery { p with limit := some 0 } =
      buildFindingsQuery { p with limit := none }) ∧
    (∀ p : TicketsParams, buildTicketsQuery { p with limit := some 0 } =
      buildTicketsQuery { p with limit := none }) ∧
    (∀ p : ClustersParams, buildClustersQuery { p with limit := some 0 } =
      buildClustersQuery { p with limit := none }) ∧
    strOccurs ("nodes(first: 100)") (buildAssetsQuery { limit := some 0 }) = true ∧
    strOccurs ("nodes(first: 50)") (buildClustersQuery { limit := some 0 }) = true ∧
    strOccurs ("nodes(first: 0)") (buildAssetsQuery { limit := some 0 }) = false ∧
    strOccurs ("nodes(first: 0)") (buildClustersQuery { limit := some 0 }) = false := by
  refine ⟨fun p => rfl, fun p => rfl, fun p => rfl, fun p => rfl, fun p => rfl,
    ?_, ?_, ?_, ?_⟩ <;> decide

/-! ## Claim C5 -/

/-- C5 counterexample: a supplied limit of 0 does not yield
min(0, 1000) = 0 in the assets document — the default 100 appears
instead (the coalescing is on truthiness, not definedness). -/
theorem c5_limit_zero_counterexample :
    strOccurs ("nodes(first: 0)") (buildAssetsQuery { limit := some 0 }) = false ∧
    strOccurs ("nodes(first: 100)") (buildAssetsQuery { limit := some 0 }) = true := by
  constructor <;> decide

/-- C5 (amended): for a supplied non-zero limit the generated document
contains min(limit, ceiling) — 1000 for assets, vulnerabilities,
findings and tickets, 500 for clusters; an unset limit yields the
default (100, clusters 50); a supplied limit of 0 also yields the
default; a limit above the ceiling is clamped to the ceiling and the
raw value never appears. -/
theorem c5_limit_clamped :
    (∀ l : Int, l ≠ 0 →
      strOccurs ("nodes(first: " ++ toString (min l 1000) ++ ")")
        (buildAssetsQuery { limit := some l }) = true ∧
      strOccurs ("nodes(first: " ++ toString (min l 1000) ++ ")")
        (buildVulnerabilitiesQuery { limit := some l }) = true ∧
      strOccurs ("nodes(first: " ++ toString (min l 1000) ++ ")")
        (buildFindingsQuery { limit := some l }) = true ∧
      strOccurs ("nodes(first: " ++ toString (min l 1000) ++ ")")
        (buildTicketsQuery { limit := some l }) = true ∧
      strOccurs ("nodes(first: " ++ toString (min l 500) ++ ")")
        (buildClustersQuery { limit := some l }) = true) ∧
    (strOccurs ("nodes(first: 100)") (buildAssetsQuery {}) = true ∧
     strOccurs ("nodes(first: 100)") (buildVulnerabilitiesQuery {}) = true ∧
     strOccurs ("nodes(first: 100)") (buildFindingsQuery {}) = true ∧
     strOccurs ("nodes(first: 100)") (buildTicketsQuery {}) = true ∧
     strOccurs ("nodes(first: 50)") (buildClustersQuery {}) = true) ∧
    (∀ l : Int, 1000 < l →
      min (jsOrI (some l) 100) 1000 = 1000 ∧ jsOrI (some l) 100 = l) ∧
    (strOccurs ("nodes(first: 1000)") (buildAssetsQuery { limit := some 5000 }) = true ∧
     strOccurs ("nodes(first: 5000)") (buildAssetsQuery { limit := some 5000 }) = false) := by
  refine ⟨?_, ⟨?_, ?_, ?_, ?_, ?_⟩, ?_, ?_, ?_⟩
  · intro l hl
    have hj : jsOrI (some l) 100 = l := by simp [jsOrI, hl]
    have hj50 : jsOrI (some l) 50 = l := by simp [jsOrI, hl]
    refine ⟨?_, ?_, ?_, ?_, ?_⟩
    · have h := assets_limit_occurs (some l); rw [hj] at h; exact h
    · have h := vulns_limit_occurs (some l); rw [hj] at h; exact h
    · have h := findings_limit_occurs (some l); rw [hj] at h; exact h
    · have h := tickets_limit_occurs (some l); rw [hj] at h; exact h
    · have h := clusters_limit_occurs (some l); rw [hj50] at h; exact h
  · decide
  · decide
  · decide
  · decide
  · decide
  · intro l hl
    have hl0 : l ≠ 0 := by omega
    have hj : jsOrI (some l) 100 = l := by simp [jsOrI, hl0]
    rw [hj]
    omega
  · decide
  · decide

/-- Witness for C5 at the concrete over-ceiling limit 2000. -/
theorem c5_limit_clamped_witness :
    strOccurs ("nodes(first: " ++ toString (min (2000 : Int) 1000) ++ ")")
      (buildAssetsQuery { limit := some 2000 }) = true ∧
    min (jsOrI (some 2000) 100) 1000 = 1000 :=
  ⟨(c5_limit_clamped.1 2000 (by decide)).1, (c5_limit_clamped.2.2.1 2000 (by decide)).1⟩

/-! ## Claim C3 -/

/-- C3 counterexample: a findings query with `age_days = 0` contains no
`discoveredAfter` clause — the builder tests `age_days` for truthiness,
not definedness. -/
theorem c3_age_days_zero_counterexample :
    strOccurs ("discoveredAfter") (buildFindingsQuery { age_days := some 0 }) = false := by
  decide

/-- C3 (amended): in the findings builder the clauses for
`risk_score_min` and `risk_score_max` are present exactly when the field
is defined (including 0), but `age_days` (and the string filters) are
tested for truthiness: `age_days = 0` and `status = ""` produce no
clause. -/
theorem c3_falsy_filter_clauses :
    (∀ m : Option Int,
      strOccurs ("riskScoreMin:") (buildFindingsQuery { risk_score_min := m }) = m.isSome) ∧
    (∀ m : Option Int,
      strOccurs ("riskScoreMax:") (buildFindingsQuery { risk_score_max := m }) = m.isSome) ∧
    (∀ d : Int,
      strOccurs ("discoveredAfter:") (buildFindingsQuery { age_days := some d }) = !(d == 0)) ∧
    strOccurs ("discoveredAfter:") (buildFindingsQuery { age_days := none }) = false ∧
    strOccurs ("riskScoreMin: 0") (buildFindingsQuery { risk_score_min := some 0 }) = true ∧
    strOccurs ("status:") (buildFindingsQuery { status := some ("") }) = false := by
  refine ⟨?_, ?_, ?_, ?_, ?_, ?_⟩
  · intro m
    cases m with
    | none => decide
    | some n =>
      show strOccurs ("riskScoreMin:") (buildFindingsQuery { risk_score_min := some n }) = true
      exact strOccurs_append_left _ (strOccurs_append_left _ (strOccurs_append_left _
        (strOccurs_append_right _ (strOccurs_append_left _ (strOccurs_append_right _
          (strOccurs_append_left _ (by decide)))))))
  · intro m
    cases m with
    | none => decide
    | some n =>
      show strOccurs ("riskScoreMax:") (buildFindingsQuery { risk_score_max := some n }) = true
      exact strOccurs_append_left _ (strOccurs_append_left _ (strOccurs_append_left _
        (strOccurs_append_right _ (strOccurs_append_left _ (strOccurs_append_right _
          (strOccurs_append_left _ (by decide)))))))
  · intro d
    by_cases hd : d = 0
    · subst hd; decide
    · have hb : (d == 0) = false := by simp [hd]
      have hfl : findingsFilters { age_days := some d } =
          ["discoveredAfter: \"-" ++ toString d ++ "d\""] := by
        simp [findingsFilters, truthyS, truthyI, hb]
      rw [hb]
      unfold buildFindingsQuery
      rw [hfl]
      exact strOccurs_append_left _ (strOccurs_append_left _ (strOccurs_append_left _
        (strOccurs_append_right _ (strOccurs_append_left _ (strOccurs_append_right _
          (strOccurs_append_left _ (strOccurs_append_left _ (by decide))))))))
  · decide
  · decide
  · decide

/-! ## Claim C7 -/

/-- C7 counterexample: with `scope = "ASSET"` and a supplied but empty
`entity_id`, the builder produces the organization-wide riskSummary
shape, not the single-entity lookup shape. -/
theorem c7_empty_entity_counterexample :
    strOccurs ("asset(id:")
      (buildRiskScoresQuery { scope := some ("ASSET"), entity_id := some ("") }) = false ∧
    strOccurs ("riskSummary")
      (buildRiskScoresQuery { scope := some ("ASSET"), entity_id := some ("") }) = true := by
  constructor <;> decide

/-- C7 (amended): the document is the single-entity `asset(id: ...)`
lookup shape exactly when scope is `"ASSET"` and a non-empty (truthy)
`entity_id` is supplied; in every other case — scope unset, non-asset
scope, missing entity_id, or an entity_id supplied as the empty
string — it is the organization-wide riskSummary shape. -/
theorem c7_risk_scope_branch :
    (∀ (sc e : Option String) (f t : Option Bool),
      strOccurs ("asset(id:") (buildRiskScoresQuery ⟨sc, e, f, t⟩) =
        ((sc == some ("ASSET")) && truthyS e)) ∧
    (∀ (sc e : Option String) (f t : Option Bool),
      ((sc == some ("ASSET")) && truthyS e) = false →
      strOccurs ("riskSummary") (buildRiskScoresQuery ⟨sc, e, f, t⟩) = true) := by
  constructor
  · intro sc e f t
    by_cases hc : ((sc == some ("ASSET")) && truthyS e) = true
    · rw [hc]
      unfold buildRiskScoresQuery
      dsimp only
      rw [if_pos hc]
      exact strOccurs_append_left _ (strOccurs_append_left _ (strOccurs_append_left _
        (strOccurs_append_left _ (strOccurs_append_left _ (strOccurs_append_left _
          (strOccurs_append_right _ (by decide)))))))
    · have hf : ((sc == some ("ASSET")) && truthyS e) = false := by
        cases hx : ((sc == some ("ASSET")) && truthyS e) with
        | false => rfl
        | true => exact absurd hx hc
      rw [hf]
      unfold buildRiskScoresQuery
      dsimp only
      rw [if_neg (by simp [hf])]
      rcases f with _ | (_ | _) <;> rcases t with _ | (_ | _) <;> decide
  · intro sc e f t h
    unfold buildRiskScoresQuery
    dsimp only
    rw [if_neg (by simp [h])]
    exact strOccurs_append_left _ (strOccurs_append_left _ (strOccurs_append_left _
      (strOccurs_append_left _ (by decide))))

/-- Witness for C7 at a concrete non-asset scope. -/
theorem c7_risk_scope_branch_witness :
    strOccurs ("riskSummary")
      (buildRiskScoresQuery ⟨some ("ORGANIZATION"), none, none, none⟩) = true :=
  c7_risk_scope_branch.2 (some ("ORGANIZATION")) none none none (by decide)

/-! ## Claim C8 -/

/-- C8: each optional boolean inclusion flag controls its nested
sub-selection block: the block (identified by its opening token) occurs
in the generated document exactly when the flag is set truthily
(`some true`); when the flag is unset or `false` the block is entirely
absent from the document text. -/
theorem c8_inclusion_flags :
    (∀ b : Option Bool,
      strOccurs ("affectedAssets \x7b")
        (buildVulnerabilitiesQuery { include_affected_assets := b }) = truthyB b) ∧
    (∀ b : Option Bool,
      strOccurs ("syncHistory \x7b")
        (buildConnectorsQuery { include_sync_history := b }) = truthyB b) ∧
    (∀ f t : Option Bool,
      strOccurs ("riskFactors \x7b")
        (buildRiskScoresQuery { include_factors := f, include_trends := t }) = truthyB f ∧
      strOccurs ("riskTrends \x7b")
        (buildRiskScoresQuery { include_factors := f, include_trends := t }) = truthyB t) ∧
    (∀ a r : Option Bool,
      strOccurs ("attributes \x7b")
        (buildDataModelsQuery { include_attributes := a, include_relationships := r }) = truthyB a ∧
      strOccurs ("relationships \x7b")
        (buildDataModelsQuery { include_attributes := a, include_relationships := r }) = truthyB r) := by
  refine ⟨?_, ?_, ?_, ?_⟩
  · intro b; rcases b with _ | (_ | _) <;> decide
  · intro b; rcases b with _ | (_ | _) <;> decide
  · intro f t
    rcases f with _ | (_ | _) <;> rcases t with _ | (_ | _) <;> exact ⟨by decide, by decide⟩
  · intro a r
    rcases a with _ | (_ | _) <;> rcases r with _ | (_ | _) <;> exact ⟨by decide, by decide⟩

/-! ## Claim C4 -/

/-- C4: when a session must be (re)established, a configured static API
key is adopted directly with expiry now + 24 hours (in ms); otherwise a
username/password login returning a lifetime of `expires_in` seconds
sets the expiry to now + (expires_in - 300) seconds, i.e. the reported
lifetime minus the 5-minute safety margin. -/
theorem c4_credential_establishment :
    (∀ (cfg : Config) (now : Int) (login : LoginOutcome) (s : ClientState),
      ¬(s.accessToken.isSome = true ∧ now < s.tokenExpiry) →
      cfg.apiKey ≠ "" →
      authenticate cfg now login s =
        .ok ⟨some cfg.apiKey, now + 24 * 60 * 60 * 1000⟩ false) ∧
    (∀ (cfg : Config) (now : Int) (tok : String) (lifetime : Int) (s : ClientState),
      ¬(s.accessToken.isSome = true ∧ now < s.tokenExpiry) →
      cfg.apiKey = "" → cfg.username ≠ "" → cfg.password ≠ "" →
      authenticate cfg now (.success tok lifetime) s =
        .ok ⟨some tok, now + (lifetime - 300) * 1000⟩ true) := by
  constructor
  · intro cfg now login s hstale hkey
    unfold authenticate
    rw [if_neg (fun hc => hstale ⟨truthyS_isSome hc.1, hc.2⟩), if_pos hkey]
  · intro cfg now tok lifetime s hstale hkey hu hp
    unfold authenticate
    rw [if_neg (fun hc => hstale ⟨truthyS_isSome hc.1, hc.2⟩),
      if_neg (show ¬(cfg.apiKey ≠ "") from fun h => h hkey),
      if_neg (show ¬(cfg.username = "" ∨ cfg.password = "") from fun h => h.elim hu hp)]

/-- Witness for C4: both credential modes at concrete inputs. -/
theorem c4_credential_establishment_witness :
    authenticate ⟨"KEY", "", ""⟩ 500 (.failure ("boom")) ⟨none, 0⟩ =
      .ok ⟨some ("KEY"), 500 + 24 * 60 * 60 * 1000⟩ false ∧
    authenticate cfgUserPass 500 (.success ("tok") 86400) ⟨none, 0⟩ =
      .ok ⟨some ("tok"), 500 + (86400 - 300) * 1000⟩ true :=
  ⟨c4_credential_establishment.1 ⟨"KEY", "", ""⟩ 500 (.failure ("boom")) ⟨none, 0⟩
      (by simp) (by simp),
   c4_credential_establishment.2 cfgUserPass 500 ("tok") 86400 ⟨none, 0⟩
      (by simp) rfl (by simp [cfgUserPass]) (by simp [cfgUserPass])⟩

/-! ## Claim C6 -/

/-- C6: while a session exists (the stored credential is truthy, i.e.
present and non-empty — the source's `if (this.accessToken && ...)`
notion of an existing session) and the current time is before its
expiry, obtaining auth headers performs no login call and returns
headers derived from the existing credential; two consecutive calls
within the validity window use the same credential, leave the state
unchanged, and report no login call — whatever the login endpoint
would do. -/
theorem c6_session_reuse :
    ∀ (cfg : Config) (lg1 lg2 : LoginOutcome) (n1 n2 : Int) (s : ClientState) (tok : String),
      s.accessToken = some tok → tok ≠ "" → n1 < s.tokenExpiry → n2 < s.tokenExpiry →
      getAuthHeaders cfg n1 lg1 s =
        .ok ⟨"Bearer " ++ tok, "application/json", "application/json"⟩ s false ∧
      getAuthHeaders cfg n2 lg2 s =
        .ok ⟨"Bearer " ++ tok, "application/json", "application/json"⟩ s false := by
  intro cfg lg1 lg2 n1 n2 s tok htok hne h1 h2
  have htr : truthyS s.accessToken = true := by
    rw [htok]
    simp [truthyS, hne]
  constructor
  · unfold getAuthHeaders authenticate
    rw [if_pos ⟨htr, h1⟩]
    simp [htok]
  · unfold getAuthHeaders authenticate
    rw [if_pos ⟨htr, h2⟩]
    simp [htok]

/-- Witness for C6: two calls inside the validity window against a
login endpoint that would fail if contacted. -/
theorem c6_session_reuse_witness :
    getAuthHeaders cfgUserPass 10 (.failure ("down")) ⟨some ("tok"), 99⟩ =
      .ok ⟨"Bearer " ++ "tok", "application/json", "application/json"⟩ ⟨some ("tok"), 99⟩ false ∧
    getAuthHeaders cfgUserPass 20 (.failure ("down")) ⟨some ("tok"), 99⟩ =
      .ok ⟨"Bearer " ++ "tok", "application/json", "application/json"⟩ ⟨some ("tok"), 99⟩ false :=
  c6_session_reuse cfgUserPass (.failure ("down")) (.failure ("down")) 10 20
    ⟨some ("tok"), 99⟩ ("tok") rfl (by decide) (by decide) (by decide)

/-! ## Claim C1 -/

/-- C1: against an endpoint that returns HTTP 401 to every request, the
executor retries without bound: with `fuel` available attempts it issues
exactly `fuel` POSTs (so a third, fourth, ... attempt all happen) and
never completes with any error — in particular it never raises an
`AuthenticationError` after the second consecutive 401, contrary to the
claim; the recursion of the source has no retry bound at all. -/
theorem c1_unbounded_401_retry :
    ∀ fuel k : Nat, (exec401 fuel k).1 = .fuelOut ∧ (exec401 fuel k).2.2.length = fuel := by
  intro fuel
  induction fuel with
  | zero => intro k; exact ⟨rfl, rfl⟩
  | succ n ih =>
    intro k
    have hstep : exec401 (n + 1) k =
        ((exec401 n (k + 1)).1, (exec401 n (k + 1)).2.1,
          ("query") :: (exec401 n (k + 1)).2.2) := rfl
    rw [hstep]
    exact ⟨(ih (k + 1)).1, by simp [(ih (k + 1)).2]⟩

/-! ## Claim C2 -/

/-- C2: a filter value carrying clause-terminating sequences is not
rejected: the builder interpolates it verbatim into the document (the
closing-delimiter sequence `") {` appears in the document text), and the
`query_assets` handler then issues the network POST with that document
and succeeds — no `ValidationError` is produced before the request. -/
theorem c2_injection_not_rejected :
    strOccurs (injectionFilter) (buildAssetsQuery { filter := some injectionFilter }) = true ∧
    strOccurs ("\") \x7b") (buildAssetsQuery { filter := some injectionFilter }) = true ∧
    handleQueryAssets cfgUserPass 1000 loginOk envOk 5 ⟨none, 0⟩
        { filter := some injectionFilter } =
      (.success, ⟨some ("tok"), 1000 + (86400 - 300) * 1000⟩,
        [buildAssetsQuery { filter := some injectionFilter }]) := by
  refine ⟨?_, ?_, rfl⟩ <;> decide

/-! ## Claim C9 -/

/-- C9: an empty raw query for `execute_graphql` is not rejected before
the network call: the handler POSTs the empty document to the endpoint
and the call completes — no validation error is produced at any point. -/
theorem c9_empty_query_not_validated :
    handleExecuteGraphQL cfgUserPass 1000 loginOk envOk 5 ⟨none, 0⟩ ("") =
      (.success, ⟨some ("tok"), 1000 + (86400 - 300) * 1000⟩, [""]) := rfl

end Brinqa
